import Mathlib

/-!
# Verification of the hcsshim clone/template persistence slice

Shallow embedding of `cmd/containerd-shim-runhcs-v1/clone.go` and the
`internal/clone` package: the template-config codec (gob-based), the
registry-backed persistence wrapper (`regstate`, external collaborator),
the lifecycle operations `SaveTemplateConfig` / `FetchTemplateConfig` /
`RemoveSavedTemplateConfig`, and the `saveAsTemplate` workflow.

External collaborators (the `regstate` key-value registry, the `uvm`
package types and methods, and the gob codec machinery) are not part of
the provided source; they are modelled from the specification, with the
possibility of underlying-store failures represented by explicit injected
fault parameters. The functions of the `clone` package itself are direct
translations of the source.
-/

/-- An apostrophe character, used inside error-message strings. -/
def apos : String := String.mk [Char.ofNat 39]

/-! ## Data model: template configurations and resource descriptors

Modelled from the spec: the `uvm` package is an external collaborator.
A Template Configuration aggregates the template id with an ordered
sequence of resource descriptors, each a concrete variant from the
registered closed set (`VSMBShare`, `SCSIMount`). -/

/-- Modelled from the spec: a network-share-mount descriptor
(`uvm.VSMBShare`), carrying the fields needed to reattach the share. -/
structure VSMBShare where
  hostPath : String
  shareName : String
  allowedFiles : List String
deriving DecidableEq

/-- Modelled from the spec: a block-storage-mount descriptor
(`uvm.SCSIMount`), carrying the fields needed to reattach the mount. -/
structure SCSIMount where
  hostPath : String
  uvmPath : String
  controller : Nat
  lun : Nat
deriving DecidableEq

/-- Modelled from the spec: the closed tagged variant set of cloneable
resource descriptors registered with the codec. -/
inductive CloneableResource where
  | vsmb (share : VSMBShare)
  | scsi (mount : SCSIMount)
deriving DecidableEq

/-- Modelled from the spec: `uvm.UVMTemplateConfig`, the aggregate that is
persisted: the template id plus the ordered resource-descriptor sequence. -/
structure UVMTemplateConfig where
  UVMID : String
  Resources : List CloneableResource
deriving DecidableEq

/-! ## Serialized byte blobs

The gob wire format is modelled as a stream of primitive tokens; a blob is
a token list. This keeps the blob opaque to the store while letting the
codec be exact. -/

/-- One primitive item of the serialized stream. -/
inductive Token where
  | nat (n : Nat)
  | str (s : String)
deriving DecidableEq

/-- A serialized blob: a stream of primitive tokens. -/
abbrev Bytes := List Token

/-! ## Codec internals

Modelled from the spec: the gob encoder/decoder machinery. Following the
design notes, each resource descriptor is written with an explicit
discriminant first (`0` for `VSMBShare`, `1` for `SCSIMount`); decoding an
unregistered discriminant is rejected explicitly. -/

/-- Modelled from the spec: serialize one resource descriptor, writing its
variant discriminant first. -/
def encodeResource : CloneableResource → Bytes
  | .vsmb sh =>
      [Token.nat 0, Token.str sh.hostPath, Token.str sh.shareName,
        Token.nat sh.allowedFiles.length] ++ sh.allowedFiles.map Token.str
  | .scsi m =>
      [Token.nat 1, Token.str m.hostPath, Token.str m.uvmPath,
        Token.nat m.controller, Token.nat m.lun]

/-- Modelled from the spec: serialize a resource list in order. -/
def encodeResources : List CloneableResource → Bytes
  | [] => []
  | res :: rest => encodeResource res ++ encodeResources rest

/-- Modelled from the spec: the full gob encoding of a template config:
the template id, the resource count, then each resource in order. -/
def gobEncodeBytes (utc : UVMTemplateConfig) : Bytes :=
  Token.str utc.UVMID :: Token.nat utc.Resources.length ::
    encodeResources utc.Resources

/-- Modelled from the spec: the gob encoder entry point. Encoding a config
whose variants are all drawn from the registered set always succeeds. -/
def gobEncode (utc : UVMTemplateConfig) : Except String Bytes :=
  Except.ok (gobEncodeBytes utc)

/-- Modelled from the spec: read a list of strings of known length. -/
def decodeStrings : Nat → Bytes → Except String (List String × Bytes)
  | 0, bs => Except.ok ([], bs)
  | n + 1, Token.str s :: bs =>
      match decodeStrings n bs with
      | Except.error e => Except.error e
      | Except.ok (ss, rest) => Except.ok (s :: ss, rest)
  | _ + 1, _ => Except.error "corrupt string list"

/-- Modelled from the spec: decode the body of a `VSMBShare` descriptor. -/
def decodeVSMB : Bytes → Except String (CloneableResource × Bytes)
  | Token.str hp :: Token.str nm :: Token.nat k :: bs =>
      match decodeStrings k bs with
      | Except.error e => Except.error e
      | Except.ok (files, rest) =>
          Except.ok (CloneableResource.vsmb ⟨hp, nm, files⟩, rest)
  | _ => Except.error "corrupt VSMB share"

/-- Modelled from the spec: decode the body of a `SCSIMount` descriptor. -/
def decodeSCSI : Bytes → Except String (CloneableResource × Bytes)
  | Token.str hp :: Token.str up :: Token.nat c :: Token.nat l :: bs =>
      Except.ok (CloneableResource.scsi ⟨hp, up, c, l⟩, bs)
  | _ => Except.error "corrupt SCSI mount"

/-- Modelled from the spec: decode one resource descriptor by switching on
its discriminant, rejecting discriminants outside the registered set. -/
def decodeResource : Bytes → Except String (CloneableResource × Bytes)
  | Token.nat tag :: bs =>
      if tag = 0 then decodeVSMB bs
      else if tag = 1 then decodeSCSI bs
      else Except.error ("unregistered resource variant tag: " ++ toString tag)
  | _ => Except.error "corrupt resource"

/-- Modelled from the spec: decode a known number of resources in order. -/
def decodeResources : Nat → Bytes → Except String (List CloneableResource × Bytes)
  | 0, bs => Except.ok ([], bs)
  | n + 1, bs =>
      match decodeResource bs with
      | Except.error e => Except.error e
      | Except.ok (r, rest) =>
          match decodeResources n rest with
          | Except.error e => Except.error e
          | Except.ok (rs, rest2) => Except.ok (r :: rs, rest2)

/-- Modelled from the spec: the gob decoder entry point, inverse of
`gobEncode`. Fails on truncated, malformed, or unregistered input. -/
def gobDecode : Bytes → Except String UVMTemplateConfig
  | Token.str id :: Token.nat n :: bs =>
      match decodeResources n bs with
      | Except.error e => Except.error e
      | Except.ok (rs, _) => Except.ok ⟨id, rs⟩
  | _ => Except.error "corrupt template config"

/-! ## The clone package codec functions (translated from the source) -/

/-- Translated from `encodeTemplateConfig` in `internal/clone/clone.go`:
gob-encode the template config, wrapping any encoder error. -/
def encodeTemplateConfig (utc : UVMTemplateConfig) : Except String Bytes :=
  match gobEncode utc with
  | Except.error e =>
      Except.error ("error while encoding template config: " ++ e)
  | Except.ok bs => Except.ok bs

/-- Translated from `decodeTemplateConfig` in `internal/clone/clone.go`:
gob-decode a blob, wrapping any decoder error; on error no configuration
value is returned. -/
def decodeTemplateConfig (encodedBytes : Bytes) : Except String UVMTemplateConfig :=
  match gobDecode encodedBytes with
  | Except.error e =>
      Except.error ("error while decoding template config: " ++ e)
  | Except.ok utc => Except.ok utc

/-! ## Codec round-trip lemmas -/

theorem decodeStrings_encode (l : List String) (rest : Bytes) :
    decodeStrings l.length (l.map Token.str ++ rest) = Except.ok (l, rest) := by
  induction l with
  | nil => simp [decodeStrings]
  | cons s l ih => simp [decodeStrings, ih]

theorem decodeResource_encode (res : CloneableResource) (rest : Bytes) :
    decodeResource (encodeResource res ++ rest) = Except.ok (res, rest) := by
  cases res with
  | vsmb sh =>
      simp [encodeResource, decodeResource, decodeVSMB,
        decodeStrings_encode sh.allowedFiles rest]
  | scsi m =>
      simp [encodeResource, decodeResource, decodeSCSI]

theorem decodeResources_encode (rs : List CloneableResource) (rest : Bytes) :
    decodeResources rs.length (encodeResources rs ++ rest) = Except.ok (rs, rest) := by
  induction rs generalizing rest with
  | nil => simp [encodeResources, decodeResources]
  | cons r rs ih =>
      simp [encodeResources, decodeResources, decodeResource_encode, ih]

theorem gobDecode_gobEncodeBytes (utc : UVMTemplateConfig) :
    gobDecode (gobEncodeBytes utc) = Except.ok utc := by
  have h := decodeResources_encode utc.Resources []
  simp [gobEncodeBytes, gobDecode, List.append_nil] at h ⊢
  simp [h]

/-- C2: decoding the bytes produced by encoding a valid template
configuration yields exactly that configuration: same template id and the
same ordered resource-descriptor sequence with each concrete variant
preserved. -/
theorem encode_decode_roundtrip (utc : UVMTemplateConfig) :
    (encodeTemplateConfig utc).bind decodeTemplateConfig = Except.ok utc := by
  simp [encodeTemplateConfig, gobEncode, Except.bind, decodeTemplateConfig,
    gobDecode_gobEncodeBytes]

theorem decodeResources_encode_prefix (rs : List CloneableResource) (m : Nat)
    (bs : Bytes) :
    decodeResources (rs.length + m) (encodeResources rs ++ bs) =
      match decodeResources m bs with
      | Except.error e => Except.error e
      | Except.ok (rs2, rest) => Except.ok (rs ++ rs2, rest) := by
  induction rs generalizing bs with
  | nil =>
      simp [encodeResources]
      rcases hd : decodeResources m bs with e | ⟨rs2, rest⟩ <;> simp [hd]
  | cons r rs ih =>
      have hlen : (r :: rs).length + m = (rs.length + m) + 1 := by
        simp [List.length_cons]
        omega
      rw [hlen]
      simp [encodeResources, List.append_assoc, decodeResources,
        decodeResource_encode, ih]
      rcases hd : decodeResources m bs with e | ⟨rs2, rest⟩ <;> simp [hd]

/-- C8: decoding a blob in which any resource descriptor carries a variant
tag outside the registered set — even when well-formed descriptors precede
it — fails with a codec error, and no configuration value is returned
alongside the error. -/
theorem decode_unknown_variant_fails (id : String)
    (rs : List CloneableResource) (m : Nat) (t : Nat) (rest : Bytes)
    (h0 : t ≠ 0) (h1 : t ≠ 1) :
    decodeTemplateConfig (Token.str id :: Token.nat (rs.length + (m + 1)) ::
        (encodeResources rs ++ Token.nat t :: rest)) =
      Except.error ("error while decoding template config: " ++
        ("unregistered resource variant tag: " ++ toString t)) := by
  have hpre := decodeResources_encode_prefix rs (m + 1) (Token.nat t :: rest)
  have hbad : decodeResources (m + 1) (Token.nat t :: rest) =
      Except.error ("unregistered resource variant tag: " ++ toString t) := by
    simp [decodeResources, decodeResource, h0, h1]
  rw [hbad] at hpre
  simp [decodeTemplateConfig, gobDecode, hpre]

/-- Witness for C8 at a concrete blob: one valid SCSI descriptor followed
by a descriptor with unregistered tag 7. -/
theorem decode_unknown_variant_fails_witness :
    decodeTemplateConfig (Token.str "vm1" :: Token.nat 2 ::
        (encodeResources [CloneableResource.scsi ⟨"hp", "up", 0, 1⟩] ++
          Token.nat 7 :: [])) =
      Except.error ("error while decoding template config: " ++
        ("unregistered resource variant tag: " ++ toString 7)) :=
  decode_unknown_variant_fails "vm1" [CloneableResource.scsi ⟨"hp", "up", 0, 1⟩]
    0 7 [] (by decide) (by decide)

/-! ## The registry model

Modelled from the spec: the external keyed persistence store (`regstate`),
a namespace-scoped key-value store. All operations of this slice use the
fixed namespace `LateClone` and the fixed field `UVMConfig`, so the
registry state is the contents of that namespace: a list of
`(id, field, blob)` entries. Underlying store failures unrelated to the
registry contents (access failures, a missing namespace, transient
errors) are represented by an optional injected fault per primitive
operation. -/

/-- Translated from `internal/clone/clone.go`: the fixed store namespace. -/
def configRoot : String := "LateClone"

/-- Translated from `internal/clone/clone.go`: the fixed record field. -/
def configKey : String := "UVMConfig"

/-- One persisted entry: key id, field name, stored blob. -/
abbrev Entry := String × String × Bytes

/-- The contents of the `LateClone` namespace of the registry. -/
abbrev Registry := List Entry

/-- Modelled from the spec: errors reported by the external store. The
store distinguishes the not-found condition from every other failure. -/
inductive RegErr where
  | notFound
  | other (msg : String)
deriving DecidableEq

/-- Modelled from the spec: render a store error as its message text, the
way the Go error interface surfaces it through a format verb. -/
def regErrMsg : RegErr → String
  | RegErr.notFound => "not found"
  | RegErr.other m => m

/-- Look up the blob stored under `(id, field)`. -/
def findEntry : Registry → String → String → Option Bytes
  | [], _, _ => none
  | (i, f, v) :: rest, id, field =>
      if i = id ∧ f = field then some v else findEntry rest id field

/-- Whether any entry is keyed by `id`. -/
def idExists : Registry → String → Bool
  | [], _ => false
  | (i, _, _) :: rest, id => if i = id then true else idExists rest id

/-- Remove every entry keyed by `id`. -/
def removeId : Registry → String → Registry
  | [], _ => []
  | (i, f, v) :: rest, id =>
      if i = id then removeId rest id else (i, f, v) :: removeId rest id

namespace regstate

/-- Modelled from the spec: `regstate.Open(configRoot, false)` acquires a
handle on the namespace scope; an injected fault models an underlying
open failure (including a missing namespace, reported as not-found). -/
def Open (fault : Option RegErr) (r : Registry) : Except RegErr Registry :=
  match fault with
  | some e => Except.error e
  | none => Except.ok r

/-- Modelled from the spec: `sk.Get(id, field, &v)` reads the record for
`id`; fails with a not-found error when no record exists. -/
def Get (fault : Option RegErr) (sk : Registry) (id field : String) :
    Except RegErr Bytes :=
  match fault with
  | some e => Except.error e
  | none =>
      match findEntry sk id field with
      | some v => Except.ok v
      | none => Except.error RegErr.notFound

/-- Modelled from the spec: `sk.Create(id, field, v)` creates a new record
for `id`; it must not silently overwrite, so it fails when a record keyed
by `id` already exists. -/
def Create (fault : Option RegErr) (sk : Registry) (id field : String)
    (v : Bytes) : Except RegErr Registry :=
  match fault with
  | some e => Except.error e
  | none =>
      if idExists sk id then
        Except.error (RegErr.other ("key already exists: " ++ id))
      else Except.ok ((id, field, v) :: sk)

/-- Modelled from the spec: `sk.Remove(id)` deletes the record for `id`;
fails with a not-found error when no record exists. -/
def Remove (fault : Option RegErr) (sk : Registry) (id : String) :
    Except RegErr Registry :=
  match fault with
  | some e => Except.error e
  | none =>
      if idExists sk id then Except.ok (removeId sk id)
      else Except.error RegErr.notFound

/-- Modelled from the spec: `regstate.IsNotFoundError(err)`, on a
possibly-nil error value (`none` plays the role of a nil error). -/
def IsNotFoundError : Option RegErr → Bool
  | some RegErr.notFound => true
  | _ => false

end regstate

/-- Project the error component of a Go-style `(value, err)` result; `none`
plays the role of a nil error. -/
def resultErr {α : Type} : Except RegErr α → Option RegErr
  | Except.ok _ => none
  | Except.error e => some e

/-- Render a possibly-nil error the way the Go `%s` format verb does: a nil
error prints as the nil placeholder. -/
def goErrString : Option RegErr → String
  | none => "%!s(<nil>)"
  | some e => regErrMsg e

/-! ## Fault-injection parameters

Each primitive store call made by an operation of the clone package gets
one optional injected fault, standing for an underlying store failure at
that call site. `none` everywhere is a fault-free underlying store. -/

/-- Faults for the two primitive calls of a load: open, then get. -/
structure LoadFaults where
  openErr : Option RegErr
  getErr : Option RegErr
deriving DecidableEq

/-- Faults for the two primitive calls of a store: open, then create. -/
structure StoreFaults where
  openErr : Option RegErr
  createErr : Option RegErr
deriving DecidableEq

/-- Faults for the two primitive calls of a removal: open, then remove. -/
structure RemoveFaults where
  openErr : Option RegErr
  removeErr : Option RegErr
deriving DecidableEq

/-- Faults for a `SaveTemplateConfig` call: its probe load, then its store. -/
structure SaveFaults where
  probe : LoadFaults
  store : StoreFaults
deriving DecidableEq

/-- A fault-free load. -/
def noLoadFaults : LoadFaults := ⟨none, none⟩

/-- A fault-free store. -/
def noStoreFaults : StoreFaults := ⟨none, none⟩

/-- A fault-free removal. -/
def noRemoveFaults : RemoveFaults := ⟨none, none⟩

/-- A fault-free save. -/
def noSaveFaults : SaveFaults := ⟨noLoadFaults, noStoreFaults⟩

/-! ## The clone package store wrappers (translated from the source) -/

/-- Translated from `loadPersistedUVMConfig` in `internal/clone/clone.go`:
open the namespace scope, read the record for `id` under the fixed field,
close the scope on every exit path. Read-only. -/
def loadPersistedUVMConfig (f : LoadFaults) (r : Registry) (id : String) :
    Except RegErr Bytes :=
  match regstate.Open f.openErr r with
  | Except.error e => Except.error e
  | Except.ok sk =>
      match regstate.Get f.getErr sk id configKey with
      | Except.error e => Except.error e
      | Except.ok encodedConfig => Except.ok encodedConfig

/-- Translated from `storePersistedUVMConfig` in `internal/clone/clone.go`:
open the namespace scope, create the record for `id`, close the scope on
every exit path; returns the store error if the create fails. -/
def storePersistedUVMConfig (f : StoreFaults) (r : Registry) (id : String)
    (encodedConfig : Bytes) : Except RegErr Unit × Registry :=
  match regstate.Open f.openErr r with
  | Except.error e => (Except.error e, r)
  | Except.ok sk =>
      match regstate.Create f.createErr sk id configKey encodedConfig with
      | Except.error e => (Except.error e, r)
      | Except.ok sk2 => (Except.ok (), sk2)

/-- Translated from `removePersistedUVMConfig` in `internal/clone/clone.go`:
open the namespace scope and remove the record for `id`; a not-found
failure of either the open or the remove is absorbed and treated as
success. -/
def removePersistedUVMConfig (f : RemoveFaults) (r : Registry) (id : String) :
    Except RegErr Unit × Registry :=
  match regstate.Open f.openErr r with
  | Except.error e =>
      if regstate.IsNotFoundError (some e) then (Except.ok (), r)
      else (Except.error e, r)
  | Except.ok sk =>
      match regstate.Remove f.removeErr sk id with
      | Except.error e =>
          if regstate.IsNotFoundError (some e) then (Except.ok (), sk)
          else (Except.error e, sk)
      | Except.ok sk2 => (Except.ok (), sk2)

/-! ## The clone package lifecycle operations (translated from the source) -/

/-- Translated from `SaveTemplateConfig` in `internal/clone/clone.go`:
probe for an existing record; unless the probe conclusively reports
not-found, reject the save with a conflict error; otherwise encode the
config and create the record, wrapping encode and store failures with
distinct stage messages. -/
def SaveTemplateConfig (f : SaveFaults) (r : Registry)
    (utc : UVMTemplateConfig) : Except String Unit × Registry :=
  let res := loadPersistedUVMConfig f.probe r utc.UVMID
  if ! regstate.IsNotFoundError (resultErr res) then
    (Except.error ("parent VM(ID: " ++ utc.UVMID ++ ") config shouldn" ++
      apos ++ "t exit in registry (" ++ goErrString (resultErr res) ++ ")"), r)
  else
    match encodeTemplateConfig utc with
    | Except.error e =>
        (Except.error ("failed to encode template config: " ++ e), r)
    | Except.ok encodedBytes =>
        match storePersistedUVMConfig f.store r utc.UVMID encodedBytes with
        | (Except.error e, r2) =>
            (Except.error ("failed to store encoded template config: " ++
              regErrMsg e), r2)
        | (Except.ok _, r2) => (Except.ok (), r2)

/-- Translated from `RemoveSavedTemplateConfig` in `internal/clone/clone.go`:
delegate to `removePersistedUVMConfig`. -/
def RemoveSavedTemplateConfig (f : RemoveFaults) (r : Registry) (id : String) :
    Except RegErr Unit × Registry :=
  removePersistedUVMConfig f r id

/-- Translated from `FetchTemplateConfig` in `internal/clone/clone.go`:
load the record for `id` and decode it, wrapping fetch and decode failures
with distinct stage messages. Read-only. -/
def FetchTemplateConfig (f : LoadFaults) (r : Registry) (id : String) :
    Except String UVMTemplateConfig :=
  match loadPersistedUVMConfig f r id with
  | Except.error e =>
      Except.error ("failed to fetch encoded template config: " ++ regErrMsg e)
  | Except.ok encodedBytes =>
      match decodeTemplateConfig encodedBytes with
      | Except.error e =>
          Except.error ("failed to decode template config: " ++ e)
      | Except.ok utc => Except.ok utc

/-! ## Registry lookup lemmas -/

theorem findEntry_of_idExists_false (r : Registry) (id k : String)
    (h : idExists r id = false) : findEntry r id k = none := by
  induction r with
  | nil => simp [findEntry]
  | cons e rest ih =>
      obtain ⟨i, f, v⟩ := e
      by_cases hi : i = id
      · simp [idExists, hi] at h
      · simp [idExists, hi] at h
        simp [findEntry, hi, ih h]

theorem findEntry_removeId (r : Registry) (id k : String) :
    findEntry (removeId r id) id k = none := by
  induction r with
  | nil => simp [removeId, findEntry]
  | cons e rest ih =>
      obtain ⟨i, f, v⟩ := e
      by_cases hi : i = id
      · simp [removeId, hi, ih]
      · simp [removeId, hi, findEntry, ih]

/-! ## Shape lemmas for the store wrappers -/

theorem store_ok_shape (f : StoreFaults) (r : Registry) (id : String)
    (bs : Bytes) (u : Unit) (r' : Registry)
    (h : storePersistedUVMConfig f r id bs = (Except.ok u, r')) :
    idExists r id = false ∧ r' = (id, configKey, bs) :: r := by
  rcases f with ⟨fo, fc⟩
  cases hex : idExists r id <;>
  rcases fo with _ | e1 <;>
  rcases fc with _ | e2 <;>
    simp_all [storePersistedUVMConfig, regstate.Open, regstate.Create]

theorem store_exists_fails (f : StoreFaults) (r : Registry) (id : String)
    (bs : Bytes) (hex : idExists r id = true) :
    ∃ e, storePersistedUVMConfig f r id bs = (Except.error e, r) := by
  rcases f with ⟨fo, fc⟩
  cases fo with
  | some e1 => exact ⟨e1, by simp [storePersistedUVMConfig, regstate.Open]⟩
  | none =>
      cases fc with
      | some e2 =>
          exact ⟨e2, by simp [storePersistedUVMConfig, regstate.Open, regstate.Create]⟩
      | none =>
          exact ⟨RegErr.other ("key already exists: " ++ id),
            by simp [storePersistedUVMConfig, regstate.Open, regstate.Create, hex]⟩

theorem save_ok_shape (f : SaveFaults) (r : Registry) (utc : UVMTemplateConfig)
    (r' : Registry) (h : SaveTemplateConfig f r utc = (Except.ok (), r')) :
    idExists r utc.UVMID = false ∧
    r' = (utc.UVMID, configKey, gobEncodeBytes utc) :: r := by
  cases hb : regstate.IsNotFoundError
      (resultErr (loadPersistedUVMConfig f.probe r utc.UVMID)) with
  | false => simp [SaveTemplateConfig, hb] at h
  | true =>
      simp [SaveTemplateConfig, hb, encodeTemplateConfig, gobEncode] at h
      rcases hst : storePersistedUVMConfig f.store r utc.UVMID (gobEncodeBytes utc)
        with ⟨res, r2⟩
      rw [hst] at h
      cases res with
      | error e => simp at h
      | ok u2 =>
          simp at h
          obtain ⟨hex, hr2⟩ := store_ok_shape f.store r utc.UVMID
            (gobEncodeBytes utc) u2 r2 hst
          exact ⟨hex, by rw [← h, hr2]⟩

theorem save_exists_fails (f : SaveFaults) (r : Registry)
    (utc : UVMTemplateConfig) (hex : idExists r utc.UVMID = true) :
    ∃ e, SaveTemplateConfig f r utc = (Except.error e, r) := by
  cases hb : regstate.IsNotFoundError
      (resultErr (loadPersistedUVMConfig f.probe r utc.UVMID)) with
  | false =>
      refine ⟨"parent VM(ID: " ++ utc.UVMID ++ ") config shouldn" ++ apos ++
        "t exit in registry (" ++
        goErrString (resultErr (loadPersistedUVMConfig f.probe r utc.UVMID)) ++
        ")", ?_⟩
      simp [SaveTemplateConfig, hb]
  | true =>
      obtain ⟨e, hst⟩ := store_exists_fails f.store r utc.UVMID
        (gobEncodeBytes utc) hex
      refine ⟨"failed to store encoded template config: " ++ regErrMsg e, ?_⟩
      simp [SaveTemplateConfig, hb, encodeTemplateConfig, gobEncode, hst]

/-! ## Claim theorems: lifecycle manager -/

/-- C4: after a successful `SaveTemplateConfig`, with no intervening store
mutation, `FetchTemplateConfig` on the same template id succeeds and
returns a configuration equal to the saved one. -/
theorem fetch_after_save (f : SaveFaults) (r r' : Registry)
    (utc : UVMTemplateConfig)
    (h : SaveTemplateConfig f r utc = (Except.ok (), r')) :
    FetchTemplateConfig noLoadFaults r' utc.UVMID = Except.ok utc := by
  obtain ⟨hex, hr⟩ := save_ok_shape f r utc r' h
  subst hr
  simp [FetchTemplateConfig, loadPersistedUVMConfig, noLoadFaults,
    regstate.Open, regstate.Get, findEntry, decodeTemplateConfig,
    gobDecode_gobEncodeBytes]

/-- Witness for C4 at a concrete configuration with one resource. -/
theorem fetch_after_save_witness :
    FetchTemplateConfig noLoadFaults
        (SaveTemplateConfig noSaveFaults []
          ⟨"vm1", [CloneableResource.vsmb ⟨"h", "s", ["f1"]⟩]⟩).2 "vm1" =
      Except.ok ⟨"vm1", [CloneableResource.vsmb ⟨"h", "s", ["f1"]⟩]⟩ :=
  fetch_after_save noSaveFaults [] _
    ⟨"vm1", [CloneableResource.vsmb ⟨"h", "s", ["f1"]⟩]⟩ (by rfl)

/-- C1: once `SaveTemplateConfig` has succeeded for an id and no removal
has happened, a second `SaveTemplateConfig` with the same id fails — under
a fault-free store and under any injected store fault alike — and the
registry, in particular the record stored under that id, is exactly the
same after the failed second call as before it. -/
theorem second_save_fails_preserves_record (f0 f1 : SaveFaults)
    (r r1 : Registry) (utc utc1 : UVMTemplateConfig)
    (hid : utc1.UVMID = utc.UVMID)
    (h : SaveTemplateConfig f0 r utc = (Except.ok (), r1)) :
    (∃ e, SaveTemplateConfig f1 r1 utc1 = (Except.error e, r1)) ∧
    findEntry r1 utc.UVMID configKey = some (gobEncodeBytes utc) := by
  obtain ⟨hex, hr1⟩ := save_ok_shape f0 r utc r1 h
  have hex1 : idExists r1 utc1.UVMID = true := by
    rw [hr1, hid]; simp [idExists]
  refine ⟨save_exists_fails f1 r1 utc1 hex1, ?_⟩
  rw [hr1]; simp [findEntry]

/-- Witness for C1: save id vm0 into an empty registry, then save it again. -/
theorem second_save_fails_preserves_record_witness :
    (∃ e, SaveTemplateConfig noSaveFaults
        (SaveTemplateConfig noSaveFaults [] ⟨"vm0", []⟩).2 ⟨"vm0", []⟩ =
        (Except.error e, (SaveTemplateConfig noSaveFaults [] ⟨"vm0", []⟩).2)) ∧
    findEntry (SaveTemplateConfig noSaveFaults [] ⟨"vm0", []⟩).2 "vm0"
        configKey = some (gobEncodeBytes ⟨"vm0", []⟩) :=
  second_save_fails_preserves_record noSaveFaults noSaveFaults [] _
    ⟨"vm0", []⟩ ⟨"vm0", []⟩ rfl (by rfl)

/-- C3: unless the existence probe conclusively reports not-found — that
is, when the probe succeeds or fails with any other error —
`SaveTemplateConfig` returns the conflict error and leaves the registry
untouched, performing no store (and the encode, a pure function, has no
observable effect). -/
theorem save_rejected_unless_notfound (f : SaveFaults) (r : Registry)
    (utc : UVMTemplateConfig)
    (h : regstate.IsNotFoundError
        (resultErr (loadPersistedUVMConfig f.probe r utc.UVMID)) = false) :
    SaveTemplateConfig f r utc =
      (Except.error ("parent VM(ID: " ++ utc.UVMID ++ ") config shouldn" ++
        apos ++ "t exit in registry (" ++
        goErrString (resultErr (loadPersistedUVMConfig f.probe r utc.UVMID)) ++
        ")"), r) := by
  simp [SaveTemplateConfig, h]

/-- Witness for C3: the probe finds an existing record, so it does not
report not-found and the save is rejected with the registry unchanged. -/
theorem save_rejected_unless_notfound_witness :
    SaveTemplateConfig noSaveFaults [("a", configKey, [])] ⟨"a", []⟩ =
      (Except.error ("parent VM(ID: " ++ "a" ++ ") config shouldn" ++ apos ++
        "t exit in registry (" ++
        goErrString (resultErr
          (loadPersistedUVMConfig noLoadFaults [("a", configKey, [])] "a")) ++
        ")"), [("a", configKey, [])]) :=
  save_rejected_unless_notfound noSaveFaults [("a", configKey, [])]
    ⟨"a", []⟩ (by rfl)

/-! ## Claim theorems: fetch and removal -/

theorem remove_nofault_ok (r : Registry) (id : String) :
    (RemoveSavedTemplateConfig noRemoveFaults r id).1 = Except.ok () := by
  cases hex : idExists r id <;>
    simp [RemoveSavedTemplateConfig, removePersistedUVMConfig, noRemoveFaults,
      regstate.Open, regstate.Remove, regstate.IsNotFoundError, hex]

/-- C6: fetching an id with no stored record — in particular, any id just
removed by `RemoveSavedTemplateConfig` — fails, and the error carries the
not-found condition of the underlying store. -/
theorem fetch_notfound_propagated (r : Registry) (id : String) :
    (findEntry r id configKey = none →
      FetchTemplateConfig noLoadFaults r id =
        Except.error ("failed to fetch encoded template config: " ++
          regErrMsg RegErr.notFound)) ∧
    FetchTemplateConfig noLoadFaults
        ((RemoveSavedTemplateConfig noRemoveFaults r id).2) id =
      Except.error ("failed to fetch encoded template config: " ++
        regErrMsg RegErr.notFound) := by
  constructor
  · intro hfe
    simp [FetchTemplateConfig, loadPersistedUVMConfig, noLoadFaults,
      regstate.Open, regstate.Get, hfe]
  · have hkey : findEntry ((RemoveSavedTemplateConfig noRemoveFaults r id).2)
        id configKey = none := by
      cases hex : idExists r id
      · have h1 : (RemoveSavedTemplateConfig noRemoveFaults r id).2 = r := by
          simp [RemoveSavedTemplateConfig, removePersistedUVMConfig,
            noRemoveFaults, regstate.Open, regstate.Remove,
            regstate.IsNotFoundError, hex]
        rw [h1]
        exact findEntry_of_idExists_false r id configKey hex
      · have h1 : (RemoveSavedTemplateConfig noRemoveFaults r id).2 =
            removeId r id := by
          simp [RemoveSavedTemplateConfig, removePersistedUVMConfig,
            noRemoveFaults, regstate.Open, regstate.Remove,
            regstate.IsNotFoundError, hex]
        rw [h1]
        exact findEntry_removeId r id configKey
    simp [FetchTemplateConfig, loadPersistedUVMConfig, noLoadFaults,
      regstate.Open, regstate.Get, hkey]

/-- Witness for C6 on the empty registry. -/
theorem fetch_notfound_propagated_witness :
    FetchTemplateConfig noLoadFaults [] "a" =
      Except.error ("failed to fetch encoded template config: " ++
        regErrMsg RegErr.notFound) ∧
    FetchTemplateConfig noLoadFaults
        ((RemoveSavedTemplateConfig noRemoveFaults [] "a").2) "a" =
      Except.error ("failed to fetch encoded template config: " ++
        regErrMsg RegErr.notFound) :=
  ⟨(fetch_notfound_propagated [] "a").1 rfl, (fetch_notfound_propagated [] "a").2⟩

/-- C7: removal succeeds whether or not a record for the id exists, a
second consecutive removal also succeeds, and a removal returns an error
only when the underlying store reports a failure distinct from
not-found. -/
theorem remove_idempotent_and_error_source (r : Registry) (id : String) :
    ((RemoveSavedTemplateConfig noRemoveFaults r id).1 = Except.ok () ∧
      (RemoveSavedTemplateConfig noRemoveFaults
        ((RemoveSavedTemplateConfig noRemoveFaults r id).2) id).1 =
        Except.ok ()) ∧
    ∀ (f : RemoveFaults) (e : RegErr),
      (RemoveSavedTemplateConfig f r id).1 = Except.error e →
      ∃ m, e = RegErr.other m ∧
        (f.openErr = some (RegErr.other m) ∨
          f.removeErr = some (RegErr.other m)) := by
  refine ⟨⟨remove_nofault_ok r id, remove_nofault_ok _ id⟩, ?_⟩
  rintro ⟨fo, fr⟩ e he
  rcases fo with _ | e1
  · rcases fr with _ | e2
    · cases hex : idExists r id <;>
        simp [RemoveSavedTemplateConfig, removePersistedUVMConfig,
          regstate.Open, regstate.Remove, regstate.IsNotFoundError, hex] at he
    · cases e2 with
      | notFound =>
          simp [RemoveSavedTemplateConfig, removePersistedUVMConfig,
            regstate.Open, regstate.Remove, regstate.IsNotFoundError] at he
      | other m2 =>
          simp [RemoveSavedTemplateConfig, removePersistedUVMConfig,
            regstate.Open, regstate.Remove, regstate.IsNotFoundError] at he
          subst he
          exact ⟨m2, rfl, Or.inr rfl⟩
  · cases e1 with
    | notFound =>
        simp [RemoveSavedTemplateConfig, removePersistedUVMConfig,
          regstate.Open, regstate.IsNotFoundError] at he
    | other m1 =>
        simp [RemoveSavedTemplateConfig, removePersistedUVMConfig,
          regstate.Open, regstate.IsNotFoundError] at he
        subst he
        exact ⟨m1, rfl, Or.inl rfl⟩

/-- Witness for C7: removal of a present and then absent record succeeds,
and an injected non-not-found open failure is the source of an error. -/
theorem remove_idempotent_and_error_source_witness :
    ((RemoveSavedTemplateConfig noRemoveFaults [("a", configKey, [])] "a").1 =
        Except.ok () ∧
      (RemoveSavedTemplateConfig noRemoveFaults
        ((RemoveSavedTemplateConfig noRemoveFaults
          [("a", configKey, [])] "a").2) "a").1 = Except.ok ()) ∧
    ∃ m, RegErr.other "boom" = RegErr.other m ∧
      ((⟨some (RegErr.other "boom"), none⟩ : RemoveFaults).openErr =
          some (RegErr.other m) ∨
        (⟨some (RegErr.other "boom"), none⟩ : RemoveFaults).removeErr =
          some (RegErr.other m)) :=
  ⟨(remove_idempotent_and_error_source [("a", configKey, [])] "a").1,
    (remove_idempotent_and_error_source [("a", configKey, [])] "a").2
      ⟨some (RegErr.other "boom"), none⟩ (RegErr.other "boom") rfl⟩

/-- C10: when opening the namespace scope itself fails with the not-found
condition (the namespace does not exist at all),
`RemoveSavedTemplateConfig` returns success and performs no further store
operation: the registry is returned unchanged. -/
theorem remove_missing_namespace (f : RemoveFaults) (r : Registry)
    (id : String) (h : f.openErr = some RegErr.notFound) :
    RemoveSavedTemplateConfig f r id = (Except.ok (), r) := by
  simp [RemoveSavedTemplateConfig, removePersistedUVMConfig, regstate.Open,
    regstate.IsNotFoundError, h]

/-- Witness for C10 at a concrete registry. -/
theorem remove_missing_namespace_witness :
    RemoveSavedTemplateConfig ⟨some RegErr.notFound, none⟩
        [("a", configKey, [])] "a" = (Except.ok (), [("a", configKey, [])]) :=
  remove_missing_namespace ⟨some RegErr.notFound, none⟩
    [("a", configKey, [])] "a" rfl

/-! ## Claim C9: error context of save failures -/

/-- C9 counterexample: two `SaveTemplateConfig` runs that differ only in
the template id both fail at the store stage with the identical error
string, so the returned error alone does not identify the template id. -/
theorem save_store_error_does_not_carry_id :
    (SaveTemplateConfig
        ⟨noLoadFaults, ⟨none, some (RegErr.other "access denied")⟩⟩ []
        ⟨"templateA", []⟩).1 =
      (SaveTemplateConfig
        ⟨noLoadFaults, ⟨none, some (RegErr.other "access denied")⟩⟩ []
        ⟨"templateB", []⟩).1 ∧
    (SaveTemplateConfig
        ⟨noLoadFaults, ⟨none, some (RegErr.other "access denied")⟩⟩ []
        ⟨"templateA", []⟩).1 =
      Except.error "failed to store encoded template config: access denied" ∧
    ("templateA" : String) ≠ "templateB" :=
  ⟨rfl, rfl, by decide⟩

/-- C9 amended: every error returned by `SaveTemplateConfig` is either the
precondition-probe conflict error, which does carry the template id, or a
store-stage error with its own fixed message, and the two shapes are never
equal, so the failing stage is identifiable from the returned error alone;
encode/store-stage errors, however, do not carry the template id. -/
theorem save_error_identifies_stage :
    (∀ (f : SaveFaults) (r : Registry) (utc : UVMTemplateConfig) (e : String),
        (SaveTemplateConfig f r utc).1 = Except.error e →
        (∃ s, e = "parent VM(ID: " ++ utc.UVMID ++ ") config shouldn" ++
            apos ++ "t exit in registry (" ++ s ++ ")") ∨
          ∃ m, e = "failed to store encoded template config: " ++
            regErrMsg m) ∧
    ∀ (a s m : String),
      "parent VM(ID: " ++ a ++ ") config shouldn" ++ apos ++
          "t exit in registry (" ++ s ++ ")" ≠
        "failed to store encoded template config: " ++ m := by
  constructor
  · intro f r utc e he
    cases hb : regstate.IsNotFoundError
        (resultErr (loadPersistedUVMConfig f.probe r utc.UVMID)) with
    | false =>
        left
        refine ⟨goErrString
          (resultErr (loadPersistedUVMConfig f.probe r utc.UVMID)), ?_⟩
        simp [SaveTemplateConfig, hb] at he
        exact he.symm
    | true =>
        right
        simp [SaveTemplateConfig, hb, encodeTemplateConfig, gobEncode] at he
        rcases hst : storePersistedUVMConfig f.store r utc.UVMID
          (gobEncodeBytes utc) with ⟨res, r2⟩
        rw [hst] at he
        cases res with
        | ok u => simp at he
        | error e2 =>
            simp at he
            exact ⟨e2, he.symm⟩
  · intro a s m hcontra
    have h2 := congrArg String.data hcontra
    simp only [String.data_append] at h2
    simp only [List.cons_append, List.append_assoc] at h2
    have h4 := congrArg (fun l => List.head? l) h2
    simp at h4

/-- Witness for C9 amended: a concrete probe-conflict error has the
conflict shape, and the two error shapes differ at concrete strings. -/
theorem save_error_identifies_stage_witness :
    ((∃ s, ("parent VM(ID: " ++ ("a" : String) ++ ") config shouldn" ++
          apos ++ "t exit in registry (" ++ "%!s(<nil>)" ++ ")") =
          "parent VM(ID: " ++ ("a" : String) ++ ") config shouldn" ++ apos ++
          "t exit in registry (" ++ s ++ ")") ∨
      ∃ m, ("parent VM(ID: " ++ ("a" : String) ++ ") config shouldn" ++
          apos ++ "t exit in registry (" ++ "%!s(<nil>)" ++ ")") =
          "failed to store encoded template config: " ++ regErrMsg m) ∧
    "parent VM(ID: " ++ ("x" : String) ++ ") config shouldn" ++ apos ++
        "t exit in registry (" ++ "y" ++ ")" ≠
      "failed to store encoded template config: " ++ "z" :=
  ⟨save_error_identifies_stage.1 noSaveFaults [("a", configKey, [])]
      ⟨"a", []⟩ _ rfl,
    save_error_identifies_stage.2 "x" "y" "z"⟩

/-! ## The Save-As-Template workflow

Modelled from the spec: the VM-lifecycle collaborator is an opaque
capability provider; each of its four calls either succeeds or fails with
an error that is propagated unmodified. One `UtilityVM` value fixes the
outcome of each call for one workflow run (`none` is success). The
workflow itself is translated from `saveAsTemplate` in
`cmd/containerd-shim-runhcs-v1/clone.go`; to make the ordering of calls
observable, the embedding also returns the ordered trace of steps
invoked. -/

/-- Modelled from the spec: the per-call outcomes of the VM-lifecycle
collaborator for one workflow run. -/
structure UtilityVM where
  removeAllNICsResult : Option String
  closeGCSConnectionResult : Option String
  generateTemplateConfigResult : Except String UVMTemplateConfig
  saveAsTemplateResult : Option String

/-- The observable steps of the Save-As-Template workflow. -/
inductive Step where
  | removeAllNICs
  | closeGCSConnection
  | generateTemplateConfig
  | saveTemplateConfig
  | markAsTemplate
deriving DecidableEq

/-- The five workflow steps in their source order. -/
def allSteps : List Step :=
  [Step.removeAllNICs, Step.closeGCSConnection, Step.generateTemplateConfig,
    Step.saveTemplateConfig, Step.markAsTemplate]

/-- Translated from `saveAsTemplate` in
`cmd/containerd-shim-runhcs-v1/clone.go`: detach all NICs, close the GCS
connection, generate the template config, persist it via
`SaveTemplateConfig`, then mark the VM as a template; the first failing
step returns its error and no later step runs. Returns the possibly-nil
error, the final registry, and the ordered trace of steps invoked. -/
def saveAsTemplate (host : UtilityVM) (f : SaveFaults) (r : Registry) :
    Option String × Registry × List Step :=
  match host.removeAllNICsResult with
  | some e => (some e, r, [Step.removeAllNICs])
  | none =>
    match host.closeGCSConnectionResult with
    | some e => (some e, r, [Step.removeAllNICs, Step.closeGCSConnection])
    | none =>
      match host.generateTemplateConfigResult with
      | Except.error e =>
          (some e, r, [Step.removeAllNICs, Step.closeGCSConnection,
            Step.generateTemplateConfig])
      | Except.ok utc =>
        match SaveTemplateConfig f r utc with
        | (Except.error e, r2) =>
            (some e, r2, [Step.removeAllNICs, Step.closeGCSConnection,
              Step.generateTemplateConfig, Step.saveTemplateConfig])
        | (Except.ok _, r2) =>
          match host.saveAsTemplateResult with
          | some e => (some e, r2, allSteps)
          | none => (none, r2, allSteps)

/-- C5: the workflow runs its five steps in exactly the source order (the
trace is always an initial segment of the full step sequence), the first
failing step aborts the workflow with that step error returned unmodified
and no later step invoked, and in particular when closing the control
channel fails the detach step has already run, none of generate, persist
and mark are invoked, the registry is untouched, and the control-channel
error is returned as-is. -/
theorem workflow_fail_fast (host : UtilityVM) (f : SaveFaults)
    (r : Registry) :
    (∃ k, (saveAsTemplate host f r).2.2 = allSteps.take k) ∧
    (∀ e, host.removeAllNICsResult = some e →
        saveAsTemplate host f r = (some e, r, allSteps.take 1)) ∧
    (∀ e, host.removeAllNICsResult = none →
        host.closeGCSConnectionResult = some e →
        saveAsTemplate host f r =
          (some e, r, [Step.removeAllNICs, Step.closeGCSConnection])) ∧
    (∀ e, host.removeAllNICsResult = none →
        host.closeGCSConnectionResult = none →
        host.generateTemplateConfigResult = Except.error e →
        saveAsTemplate host f r = (some e, r, allSteps.take 3)) ∧
    (∀ e utc r2, host.removeAllNICsResult = none →
        host.closeGCSConnectionResult = none →
        host.generateTemplateConfigResult = Except.ok utc →
        SaveTemplateConfig f r utc = (Except.error e, r2) →
        saveAsTemplate host f r = (some e, r2, allSteps.take 4)) ∧
    (∀ e utc r2, host.removeAllNICsResult = none →
        host.closeGCSConnectionResult = none →
        host.generateTemplateConfigResult = Except.ok utc →
        SaveTemplateConfig f r utc = (Except.ok (), r2) →
        host.saveAsTemplateResult = some e →
        saveAsTemplate host f r = (some e, r2, allSteps)) := by
  refine ⟨?_, ?_, ?_, ?_, ?_, ?_⟩
  · rcases hrn : host.removeAllNICsResult with _ | e1
    · rcases hcg : host.closeGCSConnectionResult with _ | e2
      · rcases hg : host.generateTemplateConfigResult with e3 | utc
        · exact ⟨3, by simp [saveAsTemplate, hrn, hcg, hg, allSteps]⟩
        · rcases hst : SaveTemplateConfig f r utc with ⟨res, r2⟩
          rcases res with e4 | u
          · exact ⟨4, by simp [saveAsTemplate, hrn, hcg, hg, hst, allSteps]⟩
          · rcases hsat : host.saveAsTemplateResult with _ | e5
            · exact ⟨5, by simp [saveAsTemplate, hrn, hcg, hg, hst, hsat,
                allSteps]⟩
            · exact ⟨5, by simp [saveAsTemplate, hrn, hcg, hg, hst, hsat,
                allSteps]⟩
      · exact ⟨2, by simp [saveAsTemplate, hrn, hcg, allSteps]⟩
    · exact ⟨1, by simp [saveAsTemplate, hrn, allSteps]⟩
  · intro e hrn
    simp [saveAsTemplate, hrn, allSteps]
  · intro e hrn hcg
    simp [saveAsTemplate, hrn, hcg]
  · intro e hrn hcg hg
    simp [saveAsTemplate, hrn, hcg, hg, allSteps]
  · intro e utc r2 hrn hcg hg hst
    simp [saveAsTemplate, hrn, hcg, hg, hst, allSteps]
  · intro e utc r2 hrn hcg hg hst hsat
    simp [saveAsTemplate, hrn, hcg, hg, hst, hsat, allSteps]

/-- Witness for C5: a VM whose control-channel close fails; the workflow
stops after the detach and close steps and returns the error as-is. -/
theorem workflow_fail_fast_witness :
    saveAsTemplate
        ⟨none, some "gcs close failure", Except.error "unused", some "unused"⟩
        noSaveFaults [] =
      (some "gcs close failure", [],
        [Step.removeAllNICs, Step.closeGCSConnection]) :=
  (workflow_fail_fast
    ⟨none, some "gcs close failure", Except.error "unused", some "unused"⟩
    noSaveFaults []).2.2.1 "gcs close failure" rfl rfl
